import Mathlib

/-!
Shallow embedding of the libzfs-rs binding layer (src/lib.rs, src/string.rs,
src/error.rs). The native library (libzfs) is an external capability provider:
each native call's observable outcome (the handles it pushes to a callback, its
return status, the context-local error slot) is passed to the embedded binding
functions as explicit input, and the binding's control flow is translated from
the Rust source. Native-side behaviour that the binding merely relies on (the
sorted snapshot iterator, handle duplication) is modelled from the spec and
marked as such.
-/

/-- Dataset type tags, from the translate_enum invocation for sys::zfs_type_t
in src/lib.rs (Filesystem, Snapshot, Volume, Pool, Bookmark). -/
inductive DatasetType where
  | Filesystem
  | Snapshot
  | Volume
  | Pool
  | Bookmark
deriving DecidableEq, Repr

/-- Native zfs_error codes (sys::zfs_error), of which the binding only
distinguishes the sentinel EZFS_UNKNOWN; a few representative members of the
closed native enum stand in for the rest. -/
inductive ZfsErrorCode where
  | EZFS_SUCCESS
  | EZFS_NOMEM
  | EZFS_BADPROP
  | EZFS_NOENT
  | EZFS_UNKNOWN
deriving DecidableEq, Repr

/-- A native zfs_handle_t as the binding observes it: an identity (the pointer),
the type tag returned by zfs_get_type, the name bytes returned by zfs_get_name,
and the creation time the native sorted snapshot iterator orders by. -/
structure ZfsHandle where
  id : Nat
  typ : DatasetType
  name : List Nat
  creation : Nat
deriving DecidableEq, Repr

/-- The context-local native error state: libzfs_errno, libzfs_error_description
and the host's last OS error, as read immediately after a failing call. -/
structure LibZfsState where
  errno : ZfsErrorCode
  errDesc : String
  osError : Nat
deriving DecidableEq, Repr

/-- ZfsError (src/error.rs): code plus descriptive message. -/
structure ZfsError where
  code : ZfsErrorCode
  msg : String
deriving DecidableEq, Repr

/-- ZfsError::last_error (src/error.rs): reads libzfs_errno and
libzfs_error_description from the context-local slot. -/
def ZfsError.last_error (st : LibZfsState) : ZfsError :=
  { code := st.errno, msg := st.errDesc }

/-- Error (src/error.rs): Sys wraps the last OS error, Zfs wraps a ZfsError. -/
inductive Error where
  | Sys (osError : Nat)
  | Zfs (e : ZfsError)
deriving DecidableEq, Repr

/-- LibZfs::get_last_error (src/lib.rs lines 141-149): read the context-local
library error first; if its code is not EZFS_UNKNOWN return the library error,
otherwise return the last OS error. -/
def get_last_error (st : LibZfsState) : Error :=
  let zfs_err := ZfsError.last_error st
  if zfs_err.code ≠ ZfsErrorCode.EZFS_UNKNOWN then
    Error.Zfs zfs_err
  else
    Error.Sys st.osError

/-- SafeString (src/string.rs): a validated byte buffer with no embedded NUL;
`bytes` are the UTF-8 content bytes, the single terminating NUL of the
underlying CString is kept implicit and reattached by `native_bytes`. -/
structure SafeString where
  bytes : List Nat
  noNul : 0 ∉ bytes

/-- From String for SafeString (src/string.rs lines 27-33): CString::new
scans for an interior NUL byte and fails on one (the Rust code unwraps, i.e.
panics; the panic is modelled as none). -/
def SafeString.from_text (bytes : List Nat) : Option SafeString :=
  if h : 0 ∈ bytes then
    none
  else
    some ⟨bytes, h⟩

/-- AsRef of str for SafeString (src/string.rs lines 41-47): the text view is
the content bytes without the terminator (CStr::to_bytes). -/
def SafeString.as_str (s : SafeString) : List Nat :=
  s.bytes

/-- SafeString::as_ptr: the byte sequence the native side reads through the
pointer, the content bytes followed by exactly one terminating NUL. -/
def SafeString.native_bytes (s : SafeString) : List Nat :=
  s.bytes ++ [0]

/-- Dataset (src/lib.rs): the context back-reference (the libzfs handle as an
opaque identity) and the owned native handle. -/
structure Dataset where
  libzfs : Nat
  handle : ZfsHandle
deriving DecidableEq, Repr

/-- Dataset::get_type: reads the native handle's type tag. -/
def Dataset.get_type (d : Dataset) : DatasetType :=
  d.handle.typ

/-- Dataset::get_name: reads the native handle's name bytes. -/
def Dataset.get_name (d : Dataset) : List Nat :=
  d.handle.name

/-- One native push-style enumeration as the binding observes it: the sequence
of handles the native iterator hands to the callback, in native order, and the
overall return status of the native iteration call. -/
structure NativeEnum where
  handles : List ZfsHandle
  status : Int
deriving DecidableEq, Repr

/-- ZfsIterCollectContext (src/lib.rs lines 393-396). -/
structure ZfsIterCollectContext where
  libzfs : Nat
  vec : List Dataset
deriving DecidableEq, Repr

/-- zfs_iter_collect (src/lib.rs lines 398-402): the trampoline wraps the
pushed handle with the stored context back-reference and appends it. -/
def zfs_iter_collect (ctx : ZfsIterCollectContext) (handle : ZfsHandle) :
    ZfsIterCollectContext :=
  { ctx with vec := ctx.vec ++ [{ libzfs := ctx.libzfs, handle := handle }] }

/-- Run one native push enumeration against a collect context: the native
iterator invokes the trampoline once per handle, in order. -/
def runCollect (ctx : ZfsIterCollectContext) (handles : List ZfsHandle) :
    ZfsIterCollectContext :=
  handles.foldl zfs_iter_collect ctx

/-- ZfsIterCallbackContext (src/lib.rs lines 404-407); the FnMut callback's
captured mutable state is made explicit as a state value of type σ. -/
structure ZfsIterCallbackContext (σ : Type) where
  libzfs : Nat
  state : σ
  callback : Dataset → σ → σ

/-- zfs_iter_callback (src/lib.rs lines 409-413): the trampoline wraps the
pushed handle and invokes the user callback synchronously. -/
def zfs_iter_callback {σ : Type} (ctx : ZfsIterCallbackContext σ)
    (handle : ZfsHandle) : ZfsIterCallbackContext σ :=
  { ctx with state := ctx.callback { libzfs := ctx.libzfs, handle := handle } ctx.state }

/-- Dataset::get_snapshots (src/lib.rs lines 261-281): collect all snapshots
pushed by zfs_iter_snapshots; on nonzero status return the last library error
(partial results discarded). `e` is the native enumeration this dataset's
zfs_iter_snapshots call performs. -/
def Dataset.get_snapshots (self : Dataset) (e : NativeEnum) (st : LibZfsState) :
    Except Error (List Dataset) :=
  let ctx := runCollect { libzfs := self.libzfs, vec := [] } e.handles
  if e.status = 0 then
    Except.ok ctx.vec
  else
    Except.error (Error.Zfs (ZfsError.last_error st))

/-- Dataset::foreach_snapshot (src/lib.rs lines 306-326): invoke the callback
once per pushed snapshot; on nonzero status return the last library error. -/
def Dataset.foreach_snapshot {σ : Type} (self : Dataset) (e : NativeEnum)
    (st : LibZfsState) (callback : Dataset → σ → σ) (s0 : σ) : Except Error σ :=
  let ctx := e.handles.foldl zfs_iter_callback
    { libzfs := self.libzfs, state := s0, callback := callback }
  if e.status = 0 then
    Except.ok ctx.state
  else
    Except.error (Error.Zfs (ZfsError.last_error st))

/-- Dataset::get_child_filesystems (src/lib.rs lines 352-369): same collect
bridge over zfs_iter_filesystems. -/
def Dataset.get_child_filesystems (self : Dataset) (e : NativeEnum)
    (st : LibZfsState) : Except Error (List Dataset) :=
  let ctx := runCollect { libzfs := self.libzfs, vec := [] } e.handles
  if e.status = 0 then
    Except.ok ctx.vec
  else
    Except.error (Error.Zfs (ZfsError.last_error st))

/-- Dataset::get_all_dependents (src/lib.rs lines 372-390): same collect bridge
over zfs_iter_dependents with recursion allowed. -/
def Dataset.get_all_dependents (self : Dataset) (e : NativeEnum)
    (st : LibZfsState) : Except Error (List Dataset) :=
  let ctx := runCollect { libzfs := self.libzfs, vec := [] } e.handles
  if e.status = 0 then
    Except.ok ctx.vec
  else
    Except.error (Error.Zfs (ZfsError.last_error st))

/-- The creation-time order the native sorted snapshot iterator sorts by. -/
def creationLE (a b : ZfsHandle) : Prop :=
  a.creation ≤ b.creation

instance : DecidableRel creationLE :=
  fun a b => Nat.decLe a.creation b.creation

instance : IsTotal ZfsHandle creationLE :=
  ⟨fun a b => Nat.le_total a.creation b.creation⟩

instance : IsTrans ZfsHandle creationLE :=
  ⟨fun _ _ _ hab hbc => Nat.le_trans hab hbc⟩

/-- Modelled from the spec: the order in which the native
zfs_iter_snapshots_sorted iterator pushes the dataset's snapshots — results are
"pre-sorted by creation time ascending (oldest first)"; the sorting itself
happens inside the native library, outside the binding. -/
def sortByCreation (l : List ZfsHandle) : List ZfsHandle :=
  List.insertionSort creationLE l

/-- Dataset::get_snapshots_ordered (src/lib.rs lines 284-303): collect bridge
over zfs_iter_snapshots_sorted. `snaps` are the dataset's snapshots as the
native side holds them; the native sorted iterator pushes them sorted by
creation time, `status` is the native call's return. -/
def Dataset.get_snapshots_ordered (self : Dataset) (snaps : List ZfsHandle)
    (status : Int) (st : LibZfsState) : Except Error (List Dataset) :=
  let ctx := runCollect { libzfs := self.libzfs, vec := [] } (sortByCreation snaps)
  if status = 0 then
    Except.ok ctx.vec
  else
    Except.error (Error.Zfs (ZfsError.last_error st))

/-- Dataset::foreach_snapshot_ordered (src/lib.rs lines 330-349): callback
bridge over zfs_iter_snapshots_sorted. -/
def Dataset.foreach_snapshot_ordered {σ : Type} (self : Dataset)
    (snaps : List ZfsHandle) (status : Int) (st : LibZfsState)
    (callback : Dataset → σ → σ) (s0 : σ) : Except Error σ :=
  let ctx := (sortByCreation snaps).foldl zfs_iter_callback
    { libzfs := self.libzfs, state := s0, callback := callback }
  if status = 0 then
    Except.ok ctx.state
  else
    Except.error (Error.Zfs (ZfsError.last_error st))

/-- A native zpool_handle_t as the binding observes it. -/
structure ZpoolHandle where
  id : Nat
  name : List Nat
deriving DecidableEq, Repr

/-- ZPool (src/lib.rs): context back-reference plus the owned native pool
handle. -/
structure ZPool where
  libzfs : Nat
  handle : ZpoolHandle
deriving DecidableEq, Repr

/-- LibZfs (src/lib.rs): owns the native library handle, kept as an opaque
identity. -/
structure LibZfs where
  handle : Nat
deriving DecidableEq, Repr

/-- LibZfs::get_zpools (src/lib.rs lines 101-131): collect every pool handle
pushed by zpool_iter; on nonzero status return the last library error,
discarding the collected pools. `pools` and `status` are what the native
zpool_iter call produces. -/
def LibZfs.get_zpools (self : LibZfs) (pools : List ZpoolHandle) (status : Int)
    (st : LibZfsState) : Except Error (List ZPool) :=
  let collected := pools.foldl
    (fun acc handle => acc ++ [{ libzfs := self.handle, handle := handle : ZPool }]) []
  if status = 0 then
    Except.ok collected
  else
    Except.error (Error.Zfs (ZfsError.last_error st))

/-- LibZfs::pool_by_name (src/lib.rs lines 31-34): zpool_open returns either a
handle or null; ptr_or_err maps null to get_last_error. -/
def LibZfs.pool_by_name (self : LibZfs) (native : Option ZpoolHandle)
    (st : LibZfsState) : Except Error ZPool :=
  match native with
  | some h => Except.ok { libzfs := self.handle, handle := h }
  | none => Except.error (get_last_error st)

/-- LibZfs::dataset_by_name (src/lib.rs lines 36-39): zfs_open returns either a
handle or null; ptr_or_err maps null to get_last_error. -/
def LibZfs.dataset_by_name (self : LibZfs) (native : Option ZfsHandle)
    (st : LibZfsState) : Except Error Dataset :=
  match native with
  | some h => Except.ok { libzfs := self.handle, handle := h }
  | none => Except.error (get_last_error st)

/-- The retain predicate of ZPool::get_datasets (src/lib.rs lines 203-210):
keep a dataset unless its type is Bookmark or Snapshot. -/
def keepDataset (ds : Dataset) : Bool :=
  decide (ds.get_type ≠ DatasetType.Bookmark ∧ ds.get_type ≠ DatasetType.Snapshot)

/-- ZPool::get_datasets (src/lib.rs lines 179-217): open the pool's root
filesystem by the pool's own name (null → error with the last library error),
seed the collect context with it, run zfs_iter_dependents recursively, retain
only non-Bookmark non-Snapshot entries, and on nonzero enumeration status
return the last library error, discarding everything. `root` is what the
native zfs_open of the pool name returns, `deps` the dependents enumeration. -/
def ZPool.get_datasets (self : ZPool) (root : Option ZfsHandle)
    (deps : NativeEnum) (st : LibZfsState) : Except Error (List Dataset) :=
  match root with
  | none => Except.error (Error.Zfs (ZfsError.last_error st))
  | some rh =>
    let ctx := runCollect
      { libzfs := self.libzfs, vec := [{ libzfs := self.libzfs, handle := rh }] }
      deps.handles
    let kept := ctx.vec.filter keepDataset
    if deps.status = 0 then
      Except.ok kept
    else
      Except.error (Error.Zfs (ZfsError.last_error st))

/-- The byte sequence build_nvlist hands to fnvlist_add_boolean for one input
name (src/lib.rs lines 92-95): the name's UTF-8 bytes with a single NUL pushed
at the end, with no validation of the name itself. -/
def nvlist_name_bytes (name : List Nat) : List Nat :=
  name ++ [0]

/-- How the native side reads a C string pointer: the bytes up to the first
NUL. -/
def cstr_read (bytes : List Nat) : List Nat :=
  bytes.takeWhile (fun b => decide (b ≠ 0))

/-- Modelled from the spec: the native name-set (nvlist) that build_nvlist
fills — "for each input name, appends it as a present-boolean entry"; each
entry holds the C-string read of the bytes handed over. -/
def build_nvlist_entries (names : List (List Nat)) : List (List Nat) :=
  names.map (fun name => cstr_read (nvlist_name_bytes name))

/-- The native outcomes a batch operation observes: the nvlist_alloc return,
the batch native call's return, and the context-local error state. -/
structure BatchEnv where
  allocStatus : Int
  callStatus : Int
  st : LibZfsState
deriving DecidableEq, Repr

/-- LibZfs::create_snapshots (src/lib.rs lines 41-60): build the nvlist (alloc
failure → get_last_error); if the nvlist is empty succeed without calling
zfs_snapshot_nvl, otherwise call it once and map nonzero return through
get_last_error. The first component records each nvlist passed to the native
batch-create call, observing how many times it was invoked. -/
def LibZfs.create_snapshots (_self : LibZfs) (env : BatchEnv)
    (names : List (List Nat)) : List (List (List Nat)) × Except Error Unit :=
  if env.allocStatus ≠ 0 then
    ([], Except.error (get_last_error env.st))
  else
    let nvl := build_nvlist_entries names
    if nvl.isEmpty then
      ([], Except.ok ())
    else if env.callStatus ≠ 0 then
      ([nvl], Except.error (get_last_error env.st))
    else
      ([nvl], Except.ok ())

/-- LibZfs::destroy_snapshots (src/lib.rs lines 62-80): identical shape with
zfs_destroy_snaps_nvl (defer flag fixed at 0). -/
def LibZfs.destroy_snapshots (_self : LibZfs) (env : BatchEnv)
    (names : List (List Nat)) : List (List (List Nat)) × Except Error Unit :=
  if env.allocStatus ≠ 0 then
    ([], Except.error (get_last_error env.st))
  else
    let nvl := build_nvlist_entries names
    if nvl.isEmpty then
      ([], Except.ok ())
    else if env.callStatus ≠ 0 then
      ([nvl], Except.error (get_last_error env.st))
    else
      ([nvl], Except.ok ())

/-- Modelled from the spec: the native handle table behind zfs_handle_dup and
zfs_close. Duplication "asks the native library to produce an independent
handle to the same underlying dataset"; fresh handles are drawn from
nextHandle, openHandles tracks live handles, closeCalls records each zfs_close
invocation in order. -/
structure NativeWorld where
  nextHandle : Nat
  openHandles : List Nat
  closeCalls : List Nat
deriving DecidableEq, Repr

/-- Modelled from the spec: zfs_handle_dup returns a fresh independent native
handle to the same dataset. -/
def zfs_handle_dup (w : NativeWorld) (_h : Nat) : Nat × NativeWorld :=
  (w.nextHandle,
   { w with nextHandle := w.nextHandle + 1,
            openHandles := w.nextHandle :: w.openHandles })

/-- Modelled from the spec: zfs_close closes exactly the handle it is given. -/
def zfs_close (w : NativeWorld) (h : Nat) : NativeWorld :=
  { w with openHandles := w.openHandles.erase h,
           closeCalls := w.closeCalls ++ [h] }

/-- Clone for Dataset (src/lib.rs lines 415-420): duplicate the native handle
via zfs_handle_dup and wrap it with the same context back-reference. -/
def Dataset.clone (self : Dataset) (w : NativeWorld) : Dataset × NativeWorld :=
  let dup := zfs_handle_dup w self.handle.id
  ({ libzfs := self.libzfs, handle := { self.handle with id := dup.1 } }, dup.2)

/-- Drop for Dataset (src/lib.rs lines 422-428): close this instance's native
handle, exactly once. -/
def Dataset.drop_impl (self : Dataset) (w : NativeWorld) : NativeWorld :=
  zfs_close w self.handle.id

/-! Helper lemmas about the iteration bridge. -/

/-- Running a collect context over a handle list appends the wrapped handles,
in push order, to the seed vector, keeping the back-reference. -/
theorem runCollect_eq (hs : List ZfsHandle) :
    ∀ ctx : ZfsIterCollectContext,
      runCollect ctx hs =
        { libzfs := ctx.libzfs,
          vec := ctx.vec ++ hs.map (fun h => { libzfs := ctx.libzfs, handle := h }) } := by
  induction hs with
  | nil =>
    intro ctx
    simp [runCollect]
  | cons h t ih =>
    intro ctx
    calc runCollect ctx (h :: t)
        = runCollect (zfs_iter_collect ctx h) t := rfl
      _ = { libzfs := ctx.libzfs,
            vec := (ctx.vec ++ [{ libzfs := ctx.libzfs, handle := h }]) ++
              t.map (fun h2 => { libzfs := ctx.libzfs, handle := h2 }) } := ih _
      _ = _ := by simp

/-- Folding the callback trampoline with a pure accumulating callback collects
the projections of the wrapped handles, in push order. -/
theorem foldl_callback_state {β : Type} (f : Dataset → β) (lib : Nat)
    (hs : List ZfsHandle) :
    ∀ s : List β,
      (hs.foldl zfs_iter_callback
        ⟨lib, s, fun d acc => acc ++ [f d]⟩).state
      = s ++ hs.map (fun h => f { libzfs := lib, handle := h }) := by
  induction hs with
  | nil =>
    intro s
    simp [ZfsIterCallbackContext.state]
  | cons h t ih =>
    intro s
    calc (List.foldl zfs_iter_callback ⟨lib, s, fun d acc => acc ++ [f d]⟩ (h :: t)).state
        = (List.foldl zfs_iter_callback
            ⟨lib, s ++ [f { libzfs := lib, handle := h }], fun d acc => acc ++ [f d]⟩ t).state := rfl
      _ = (s ++ [f { libzfs := lib, handle := h }]) ++
            t.map (fun h2 => f { libzfs := lib, handle := h2 }) := ih _
      _ = _ := by simp

/-! Concrete fixtures used by the witness theorems. -/

/-- A context-local error state holding a specific library error code. -/
def stNoent : LibZfsState :=
  { errno := ZfsErrorCode.EZFS_NOENT, errDesc := "dataset does not exist", osError := 2 }

/-- A context-local error state holding the unknown sentinel. -/
def stUnknown : LibZfsState :=
  { errno := ZfsErrorCode.EZFS_UNKNOWN, errDesc := "internal error", osError := 7 }

/-- A filesystem handle named "tank". -/
def hFs : ZfsHandle :=
  { id := 10, typ := DatasetType.Filesystem, name := [116, 97, 110, 107], creation := 100 }

/-- A snapshot handle with creation time 3. -/
def hSnapA : ZfsHandle :=
  { id := 11, typ := DatasetType.Snapshot, name := [115, 49], creation := 3 }

/-- A snapshot handle with creation time 1. -/
def hSnapB : ZfsHandle :=
  { id := 12, typ := DatasetType.Snapshot, name := [115, 50], creation := 1 }

/-- A snapshot handle with creation time 2. -/
def hSnapC : ZfsHandle :=
  { id := 13, typ := DatasetType.Snapshot, name := [115, 51], creation := 2 }

/-- A volume handle. -/
def hVol : ZfsHandle :=
  { id := 14, typ := DatasetType.Volume, name := [118], creation := 5 }

/-- A bookmark handle. -/
def hBook : ZfsHandle :=
  { id := 15, typ := DatasetType.Bookmark, name := [98], creation := 6 }

/-- A live library context fixture. -/
def lz0 : LibZfs :=
  { handle := 1 }

/-- A live dataset fixture wrapping the filesystem handle. -/
def d0 : Dataset :=
  { libzfs := 1, handle := hFs }

/-- A live pool fixture. -/
def zp0 : ZPool :=
  { libzfs := 1, handle := { id := 20, name := [116, 97, 110, 107] } }

/-- C8: SafeString construction from host text fails for every byte sequence
containing an embedded NUL; for every NUL-free sequence it succeeds and the
text view round-trips to exactly the original bytes. -/
theorem c8_safestring_roundtrip (bytes : List Nat) :
    (0 ∈ bytes → SafeString.from_text bytes = none) ∧
    (∀ h : 0 ∉ bytes,
      SafeString.from_text bytes = some ⟨bytes, h⟩ ∧
      SafeString.as_str ⟨bytes, h⟩ = bytes) := by
  constructor
  · intro h
    simp [SafeString.from_text, h]
  · intro h
    refine ⟨?_, rfl⟩
    simp [SafeString.from_text, h]

/-- C8 witness: "a\x00b" (bytes 97, 0, 98) is rejected; "tank/fs" is accepted
and its text view is the same bytes. -/
theorem c8_safestring_roundtrip_witness :
    SafeString.from_text [97, 0, 98] = none ∧
    SafeString.from_text [116, 97, 110, 107, 47, 102, 115]
      = some ⟨[116, 97, 110, 107, 47, 102, 115], by decide⟩ ∧
    SafeString.as_str ⟨[116, 97, 110, 107, 47, 102, 115], by decide⟩
      = [116, 97, 110, 107, 47, 102, 115] :=
  ⟨(c8_safestring_roundtrip [97, 0, 98]).1 (by decide),
   ((c8_safestring_roundtrip [116, 97, 110, 107, 47, 102, 115]).2 (by decide)).1,
   ((c8_safestring_roundtrip [116, 97, 110, 107, 47, 102, 115]).2 (by decide)).2⟩

/-- The callback run that merely accumulates each pushed dataset computes
exactly the collect context's vector. -/
theorem callback_state_append (lib : Nat) (hs : List ZfsHandle) :
    (hs.foldl zfs_iter_callback ⟨lib, [], fun d acc => acc ++ [d]⟩).state
      = (runCollect ⟨lib, []⟩ hs).vec := by
  have h1 := foldl_callback_state (fun d => d) lib hs []
  have h2 := runCollect_eq hs ⟨lib, []⟩
  rw [h2]
  exact h1

/-- C1: every enumeration operation of the binding — get_zpools, get_snapshots,
get_snapshots_ordered, get_child_filesystems, get_all_dependents and
get_datasets — returns an Error whenever the native enumeration call's overall
return status is nonzero, and none of the already-collected partial results
reach the caller. -/
theorem c1_enumeration_failure_discards (lz : LibZfs) (self : Dataset)
    (zp : ZPool) :
    (∀ (pools : List ZpoolHandle) (status : Int) (st : LibZfsState), status ≠ 0 →
      lz.get_zpools pools status st
        = Except.error (Error.Zfs (ZfsError.last_error st))) ∧
    (∀ (e : NativeEnum) (st : LibZfsState), e.status ≠ 0 →
      self.get_snapshots e st
        = Except.error (Error.Zfs (ZfsError.last_error st))) ∧
    (∀ (snaps : List ZfsHandle) (status : Int) (st : LibZfsState), status ≠ 0 →
      self.get_snapshots_ordered snaps status st
        = Except.error (Error.Zfs (ZfsError.last_error st))) ∧
    (∀ (e : NativeEnum) (st : LibZfsState), e.status ≠ 0 →
      self.get_child_filesystems e st
        = Except.error (Error.Zfs (ZfsError.last_error st))) ∧
    (∀ (e : NativeEnum) (st : LibZfsState), e.status ≠ 0 →
      self.get_all_dependents e st
        = Except.error (Error.Zfs (ZfsError.last_error st))) ∧
    (∀ (root : Option ZfsHandle) (deps : NativeEnum) (st : LibZfsState),
      deps.status ≠ 0 →
      zp.get_datasets root deps st
        = Except.error (Error.Zfs (ZfsError.last_error st))) := by
  refine ⟨?_, ?_, ?_, ?_, ?_, ?_⟩
  · intro pools status st h
    simp [LibZfs.get_zpools, h]
  · intro e st h
    simp [Dataset.get_snapshots, h]
  · intro snaps status st h
    simp [Dataset.get_snapshots_ordered, h]
  · intro e st h
    simp [Dataset.get_child_filesystems, h]
  · intro e st h
    simp [Dataset.get_all_dependents, h]
  · intro root deps st h
    cases root with
    | none => simp [ZPool.get_datasets]
    | some rh => simp [ZPool.get_datasets, h]

/-- C1 witness: each enumeration with nonzero native status (1) over a
non-empty native result set yields the library error, discarding the collected
handles. -/
theorem c1_enumeration_failure_discards_witness :
    lz0.get_zpools [{ id := 20, name := [116, 97, 110, 107] }] 1 stNoent
      = Except.error (Error.Zfs (ZfsError.last_error stNoent)) ∧
    d0.get_snapshots { handles := [hSnapA], status := 1 } stNoent
      = Except.error (Error.Zfs (ZfsError.last_error stNoent)) ∧
    d0.get_snapshots_ordered [hSnapA] 1 stNoent
      = Except.error (Error.Zfs (ZfsError.last_error stNoent)) ∧
    d0.get_child_filesystems { handles := [hFs], status := 1 } stNoent
      = Except.error (Error.Zfs (ZfsError.last_error stNoent)) ∧
    d0.get_all_dependents { handles := [hSnapA], status := 1 } stNoent
      = Except.error (Error.Zfs (ZfsError.last_error stNoent)) ∧
    zp0.get_datasets (some hFs) { handles := [hSnapA], status := 1 } stNoent
      = Except.error (Error.Zfs (ZfsError.last_error stNoent)) :=
  ⟨(c1_enumeration_failure_discards lz0 d0 zp0).1 _ 1 stNoent (by decide),
   (c1_enumeration_failure_discards lz0 d0 zp0).2.1 _ stNoent (by decide),
   (c1_enumeration_failure_discards lz0 d0 zp0).2.2.1 _ 1 stNoent (by decide),
   (c1_enumeration_failure_discards lz0 d0 zp0).2.2.2.1 _ stNoent (by decide),
   (c1_enumeration_failure_discards lz0 d0 zp0).2.2.2.2.1 _ stNoent (by decide),
   (c1_enumeration_failure_discards lz0 d0 zp0).2.2.2.2.2 _ _ stNoent (by decide)⟩

/-- C4: collect-mode and push-callback-mode snapshot enumeration over the same
native enumeration yield the same datasets in the same order — the callback run
that accumulates the pushed datasets equals the collected result, and on
success the accumulated names are the collected names. -/
theorem c4_collect_callback_agree (self : Dataset) (e : NativeEnum)
    (st : LibZfsState) :
    self.foreach_snapshot e st (fun d acc => acc ++ [d]) []
      = self.get_snapshots e st ∧
    (∀ l, self.get_snapshots e st = Except.ok l →
      self.foreach_snapshot e st (fun d acc => acc ++ [d.get_name]) []
        = Except.ok (l.map Dataset.get_name)) := by
  have hds := callback_state_append self.libzfs e.handles
  have hname := foldl_callback_state Dataset.get_name self.libzfs e.handles []
  have hrun := runCollect_eq e.handles { libzfs := self.libzfs, vec := [] }
  constructor
  · unfold Dataset.foreach_snapshot Dataset.get_snapshots
    by_cases h : e.status = 0
    · simp only [h, if_pos]
      exact congrArg Except.ok hds
    · simp [h]
  · intro l hl
    unfold Dataset.get_snapshots at hl
    by_cases h : e.status = 0
    · simp only [h, if_pos] at hl
      unfold Dataset.foreach_snapshot
      simp only [h, if_pos]
      rw [hname]
      cases hl
      rw [hrun]
      simp [List.map_map]
    · simp [h] at hl

/-- C5: the ordered snapshot variant returns its entries sorted by creation
time in non-decreasing order (oldest first), and the callback-mode ordered
variant pushes the same datasets in the same order as the collect-mode one. -/
theorem c5_ordered_by_creation (self : Dataset) (snaps : List ZfsHandle)
    (st : LibZfsState) :
    (∀ (status : Int) (l : List Dataset),
      self.get_snapshots_ordered snaps status st = Except.ok l →
      List.Sorted (fun a b : Dataset => a.handle.creation ≤ b.handle.creation) l) ∧
    (∀ status : Int,
      self.foreach_snapshot_ordered snaps status st (fun d acc => acc ++ [d]) []
        = self.get_snapshots_ordered snaps status st) := by
  constructor
  · intro status l hl
    unfold Dataset.get_snapshots_ordered at hl
    by_cases h : status = 0
    · simp only [h, if_pos] at hl
      cases hl
      rw [runCollect_eq]
      simp only [List.nil_append]
      have hsorted : List.Sorted creationLE (sortByCreation snaps) :=
        List.sorted_insertionSort creationLE snaps
      rw [List.Sorted, List.pairwise_map]
      exact hsorted.imp (fun hab => hab)
    · simp [h] at hl
  · intro status
    unfold Dataset.foreach_snapshot_ordered Dataset.get_snapshots_ordered
    by_cases h : status = 0
    · simp only [h, if_pos]
      exact congrArg Except.ok (callback_state_append self.libzfs (sortByCreation snaps))
    · simp [h]

/-- C5 witness: a dataset with snapshots timestamped 3, 1, 2 comes out in
creation order 1, 2, 3, and the result is sorted. -/
theorem c5_ordered_by_creation_witness :
    d0.get_snapshots_ordered [hSnapA, hSnapB, hSnapC] 0 stNoent
      = Except.ok [{ libzfs := 1, handle := hSnapB }, { libzfs := 1, handle := hSnapC },
          { libzfs := 1, handle := hSnapA }] ∧
    List.Sorted (fun a b : Dataset => a.handle.creation ≤ b.handle.creation)
      [{ libzfs := 1, handle := hSnapB }, { libzfs := 1, handle := hSnapC },
       { libzfs := 1, handle := hSnapA }] :=
  ⟨rfl,
   (c5_ordered_by_creation d0 [hSnapA, hSnapB, hSnapC] stNoent).1 0 _ rfl⟩

/-- C2: with the name-set successfully allocated, an empty set makes both batch
operations succeed without ever invoking the native batch call; a non-empty
set makes each invoke its native batch call exactly once, translating a
nonzero native return to an Error through get_last_error and a zero return to
success. -/
theorem c2_batch_empty_guard (lz : LibZfs) (env : BatchEnv)
    (names : List (List Nat)) (halloc : env.allocStatus = 0) :
    ((build_nvlist_entries names).isEmpty = true →
      lz.create_snapshots env names = ([], Except.ok ()) ∧
      lz.destroy_snapshots env names = ([], Except.ok ())) ∧
    ((build_nvlist_entries names).isEmpty = false →
      (lz.create_snapshots env names).1 = [build_nvlist_entries names] ∧
      (lz.destroy_snapshots env names).1 = [build_nvlist_entries names] ∧
      (env.callStatus ≠ 0 →
        (lz.create_snapshots env names).2 = Except.error (get_last_error env.st) ∧
        (lz.destroy_snapshots env names).2 = Except.error (get_last_error env.st)) ∧
      (env.callStatus = 0 →
        (lz.create_snapshots env names).2 = Except.ok () ∧
        (lz.destroy_snapshots env names).2 = Except.ok ())) := by
  constructor
  · intro hempty
    constructor
    · simp [LibZfs.create_snapshots, halloc, hempty]
    · simp [LibZfs.destroy_snapshots, halloc, hempty]
  · intro hfull
    by_cases hcall : env.callStatus = 0
    · refine ⟨?_, ?_, ?_, ?_⟩
      · simp [LibZfs.create_snapshots, halloc, hfull, hcall]
      · simp [LibZfs.destroy_snapshots, halloc, hfull, hcall]
      · intro hbad
        exact absurd hcall hbad
      · intro _
        constructor
        · simp [LibZfs.create_snapshots, halloc, hfull, hcall]
        · simp [LibZfs.destroy_snapshots, halloc, hfull, hcall]
    · refine ⟨?_, ?_, ?_, ?_⟩
      · simp [LibZfs.create_snapshots, halloc, hfull, hcall]
      · simp [LibZfs.destroy_snapshots, halloc, hfull, hcall]
      · intro _
        constructor
        · simp [LibZfs.create_snapshots, halloc, hfull, hcall]
        · simp [LibZfs.destroy_snapshots, halloc, hfull, hcall]
      · intro hzero
        exact absurd hzero hcall

/-- A batch environment whose nvlist allocation succeeds and whose native
batch call fails. -/
def envFail : BatchEnv :=
  { allocStatus := 0, callStatus := 1, st := stNoent }

/-- C2 witness: the empty iterator succeeds with no native batch invocation;
the one-name iterator invokes the native call exactly once and a nonzero
return surfaces as the last library error. -/
theorem c2_batch_empty_guard_witness :
    lz0.create_snapshots envFail [] = ([], Except.ok ()) ∧
    lz0.destroy_snapshots envFail [] = ([], Except.ok ()) ∧
    (lz0.create_snapshots envFail [[97]]).1 = [build_nvlist_entries [[97]]] ∧
    (lz0.create_snapshots envFail [[97]]).2
      = Except.error (get_last_error stNoent) ∧
    (lz0.destroy_snapshots envFail [[97]]).2
      = Except.error (get_last_error stNoent) :=
  ⟨((c2_batch_empty_guard lz0 envFail [] rfl).1 rfl).1,
   ((c2_batch_empty_guard lz0 envFail [] rfl).1 rfl).2,
   ((c2_batch_empty_guard lz0 envFail [[97]] rfl).2 rfl).1,
   (((c2_batch_empty_guard lz0 envFail [[97]] rfl).2 rfl).2.2.1 (by decide)).1,
   (((c2_batch_empty_guard lz0 envFail [[97]] rfl).2 rfl).2.2.1 (by decide)).2⟩

/-- C3 counterexample: get_zpools failing with status 1 while the context-local
error slot holds the unknown sentinel returns the library kind wrapping the
sentinel code, not the environment kind wrapping the last OS error — the
enumeration operations bypass the get_last_error disambiguation. -/
theorem c3_counterexample :
    lz0.get_zpools [] 1 stUnknown
      = Except.error
          (Error.Zfs { code := ZfsErrorCode.EZFS_UNKNOWN, msg := "internal error" }) ∧
    Error.Zfs { code := ZfsErrorCode.EZFS_UNKNOWN, msg := "internal error" }
      ≠ Error.Sys stUnknown.osError := by
  refine ⟨rfl, ?_⟩
  intro h
  exact Error.noConfusion h

/-- C3 amended: a fallible operation that fails through get_last_error (open
pool or dataset by name; the batch operations behave the same, see C2) reads
the context-local library error first and returns the environment kind exactly
when that code is the unknown sentinel; the enumeration operations instead
return the library kind unconditionally, wrapping the context-local code and
message even when the code is the unknown sentinel. -/
theorem c3_last_error_disambiguation (st : LibZfsState) :
    (st.errno = ZfsErrorCode.EZFS_UNKNOWN →
      get_last_error st = Error.Sys st.osError) ∧
    (st.errno ≠ ZfsErrorCode.EZFS_UNKNOWN →
      get_last_error st = Error.Zfs { code := st.errno, msg := st.errDesc }) ∧
    (∀ lz : LibZfs, lz.pool_by_name none st = Except.error (get_last_error st)) ∧
    (∀ lz : LibZfs, lz.dataset_by_name none st = Except.error (get_last_error st)) ∧
    (∀ (lz : LibZfs) (pools : List ZpoolHandle) (status : Int), status ≠ 0 →
      lz.get_zpools pools status st
        = Except.error (Error.Zfs { code := st.errno, msg := st.errDesc })) := by
  refine ⟨?_, ?_, ?_, ?_, ?_⟩
  · intro h
    simp [get_last_error, ZfsError.last_error, h]
  · intro h
    simp [get_last_error, ZfsError.last_error, h]
  · intro lz
    rfl
  · intro lz
    rfl
  · intro lz pools status h
    simp [LibZfs.get_zpools, h, ZfsError.last_error]

/-- C3 amended witness: the unknown sentinel maps to the environment kind and a
specific code maps to the library kind through get_last_error, while a failing
enumeration returns the library kind even on the sentinel. -/
theorem c3_last_error_disambiguation_witness :
    get_last_error stUnknown = Error.Sys 7 ∧
    get_last_error stNoent
      = Error.Zfs { code := ZfsErrorCode.EZFS_NOENT, msg := "dataset does not exist" } ∧
    lz0.get_zpools [] 1 stUnknown
      = Except.error
          (Error.Zfs { code := ZfsErrorCode.EZFS_UNKNOWN, msg := "internal error" }) :=
  ⟨(c3_last_error_disambiguation stUnknown).1 rfl,
   (c3_last_error_disambiguation stNoent).2.1 (by decide),
   (c3_last_error_disambiguation stUnknown).2.2.2.2 lz0 [] 1 (by decide)⟩

/-- C6: a successful ZPool::get_datasets returns only filesystem- or
volume-typed datasets: the retain step filters out every snapshot- and
bookmark-typed entry, and — under the native contract that a live dataset
handle's type tag is never the pool pseudo-type (a dataset represents a
filesystem, snapshot, volume or bookmark; the pool-root is its pool's root
filesystem) — no other type appears in the result. -/
theorem c6_get_datasets_types (self : ZPool) (root : Option ZfsHandle)
    (deps : NativeEnum) (st : LibZfsState)
    (hroot : ∀ h, root = some h → h.typ ≠ DatasetType.Pool)
    (hdeps : ∀ h ∈ deps.handles, h.typ ≠ DatasetType.Pool) :
    ∀ l, self.get_datasets root deps st = Except.ok l →
      ∀ d ∈ l, d.get_type = DatasetType.Filesystem ∨ d.get_type = DatasetType.Volume := by
  intro l hl d hd
  cases root with
  | none => simp [ZPool.get_datasets] at hl
  | some rh =>
    simp only [ZPool.get_datasets] at hl
    rw [runCollect_eq] at hl
    by_cases h : deps.status = 0
    · simp only [h, if_pos, Except.ok.injEq] at hl
      subst hl
      rw [List.mem_filter] at hd
      obtain ⟨hmem, hkeep⟩ := hd
      have htyp : d.get_type ≠ DatasetType.Bookmark ∧ d.get_type ≠ DatasetType.Snapshot := by
        simpa [keepDataset] using hkeep
      have hpool : d.get_type ≠ DatasetType.Pool := by
        simp only [List.singleton_append, List.mem_cons, List.mem_map] at hmem
        rcases hmem with hroot2 | ⟨h2, hh2, rfl⟩
        · subst hroot2
          exact hroot rh rfl
        · exact hdeps h2 hh2
      rcases htyp with ⟨hb, hs⟩
      cases hdt : d.get_type with
      | Filesystem => exact Or.inl rfl
      | Volume => exact Or.inr rfl
      | Snapshot => exact absurd hdt hs
      | Bookmark => exact absurd hdt hb
      | Pool => exact absurd hdt hpool
    · simp [h] at hl

/-- C6 witness: a root filesystem with snapshot, volume and bookmark
dependents yields exactly the filesystem and the volume, both of an allowed
type. -/
theorem c6_get_datasets_types_witness :
    zp0.get_datasets (some hFs) { handles := [hSnapA, hVol, hBook], status := 0 } stNoent
      = Except.ok [{ libzfs := 1, handle := hFs }, { libzfs := 1, handle := hVol }] ∧
    (∀ d ∈ [{ libzfs := 1, handle := hFs : Dataset }, { libzfs := 1, handle := hVol }],
      d.get_type = DatasetType.Filesystem ∨ d.get_type = DatasetType.Volume) :=
  ⟨rfl,
   c6_get_datasets_types zp0 (some hFs)
     { handles := [hSnapA, hVol, hBook], status := 0 } stNoent
     (fun h hh => by injection hh with hh; rw [← hh]; decide)
     (by decide) _ rfl⟩

/-- C7: cloning a live Dataset asks the native library for a duplicate and
wraps an independent, distinct native handle; closing either copy leaves the
other handle open, and dropping the duplicate and then the original performs
exactly two native close calls, one per handle. -/
theorem c7_clone_independent (d : Dataset) (w : NativeWorld)
    (hopen : d.handle.id ∈ w.openHandles)
    (hfresh : d.handle.id < w.nextHandle) :
    (d.clone w).1.handle.id ≠ d.handle.id ∧
    (d.clone w).1.handle.id ∈ (d.clone w).2.openHandles ∧
    d.handle.id ∈ (d.clone w).2.openHandles ∧
    d.handle.id ∈ ((d.clone w).1.drop_impl (d.clone w).2).openHandles ∧
    (d.clone w).1.handle.id ∈ (d.drop_impl (d.clone w).2).openHandles ∧
    (d.drop_impl ((d.clone w).1.drop_impl (d.clone w).2)).closeCalls
      = w.closeCalls ++ [(d.clone w).1.handle.id, d.handle.id] := by
  have hne : w.nextHandle ≠ d.handle.id := (Nat.ne_of_lt hfresh).symm
  refine ⟨hne, ?_, ?_, ?_, ?_, ?_⟩
  · exact List.mem_cons_self _ _
  · exact List.mem_cons_of_mem _ hopen
  · show d.handle.id ∈ (List.erase (w.nextHandle :: w.openHandles) w.nextHandle)
    rw [List.erase_cons_head]
    exact hopen
  · show w.nextHandle ∈ (List.erase (w.nextHandle :: w.openHandles) d.handle.id)
    rw [List.erase_cons_tail]
    · exact List.mem_cons_self _ _
    · simp [hne]
  · show (w.closeCalls ++ [w.nextHandle]) ++ [d.handle.id]
        = w.closeCalls ++ [w.nextHandle, d.handle.id]
    simp

/-- A native world fixture: the next fresh handle is 100, handle 10 (the
fixture dataset's) is open, no close call has happened yet. -/
def w0 : NativeWorld :=
  { nextHandle := 100, openHandles := [10], closeCalls := [] }

/-- C7 witness: cloning the fixture dataset in the fixture world yields handle
100 next to handle 10; each remains open after the other closes, and dropping
both closes exactly handles 100 and 10, in that order. -/
theorem c7_clone_independent_witness :
    (d0.clone w0).1.handle.id ≠ d0.handle.id ∧
    (d0.clone w0).1.handle.id ∈ (d0.clone w0).2.openHandles ∧
    d0.handle.id ∈ (d0.clone w0).2.openHandles ∧
    d0.handle.id ∈ ((d0.clone w0).1.drop_impl (d0.clone w0).2).openHandles ∧
    (d0.clone w0).1.handle.id ∈ (d0.drop_impl (d0.clone w0).2).openHandles ∧
    (d0.drop_impl ((d0.clone w0).1.drop_impl (d0.clone w0).2)).closeCalls
      = w0.closeCalls ++ [(d0.clone w0).1.handle.id, d0.handle.id] :=
  c7_clone_independent d0 w0 (by decide) (by decide)

/-- Reading the C string build_nvlist hands over returns the full name exactly
when the name itself contains no NUL byte. -/
theorem cstr_read_append_nul (name : List Nat) (h : 0 ∉ name) :
    cstr_read (name ++ [0]) = name := by
  induction name with
  | nil => rfl
  | cons a t ih =>
    have ha : a ≠ 0 := fun hh => h (by simp [hh])
    have ht : 0 ∉ t := fun hh => h (List.mem_cons_of_mem _ hh)
    have ih2 := ih ht
    simp only [cstr_read, ne_eq, decide_not] at ih2 ⊢
    simp [List.takeWhile_cons, ha, ih2]

/-- C9 counterexample: batch name iterators are not validated through
SafeString: for the name bytes 97, 0, 98 (the text "a", NUL, "b"),
build_nvlist hands the native call the bytes 97, 0, 98, 0 — an embedded NUL
sits before the terminator, so the handed sequence is not NUL-free text
followed by exactly one NUL, and the native side reads only the truncated
name 97. -/
theorem c9_counterexample :
    nvlist_name_bytes [97, 0, 98] = [97, 0, 98, 0] ∧
    0 ∈ (nvlist_name_bytes [97, 0, 98]).dropLast ∧
    cstr_read (nvlist_name_bytes [97, 0, 98]) = [97] := by
  decide

/-- C9 amended: string arguments that are SafeStrings (pool_by_name,
dataset_by_name take one) reach the native call as validated NUL-free text
followed by exactly one terminating NUL; the batch create/destroy name
iterators bypass SafeString — build_nvlist hands over the raw name bytes with
one NUL appended, which is NUL-free text followed by exactly one NUL only
when the name itself happens to contain no NUL. -/
theorem c9_native_bytes (s : SafeString) (name : List Nat) :
    (s.native_bytes = s.as_str ++ [0] ∧
     s.native_bytes.dropLast = s.as_str ∧
     0 ∉ s.native_bytes.dropLast) ∧
    nvlist_name_bytes name = name ++ [0] ∧
    (0 ∉ name →
      (nvlist_name_bytes name).dropLast = name ∧
      0 ∉ (nvlist_name_bytes name).dropLast ∧
      cstr_read (nvlist_name_bytes name) = name) := by
  refine ⟨⟨rfl, ?_, ?_⟩, rfl, ?_⟩
  · simp [SafeString.native_bytes, SafeString.as_str]
  · simp only [SafeString.native_bytes, List.dropLast_concat]
    exact s.noNul
  · intro h
    refine ⟨?_, ?_, ?_⟩
    · simp [nvlist_name_bytes]
    · simpa [nvlist_name_bytes] using h
    · exact cstr_read_append_nul name h

/-- C9 amended witness: the SafeString for "tank/fs" reaches the native side
as its bytes plus one NUL with a NUL-free prefix, and the unvalidated batch
name 97 happens to be NUL-free, so its handed bytes are 97, 0. -/
theorem c9_native_bytes_witness :
    SafeString.native_bytes ⟨[116, 97, 110, 107, 47, 102, 115], by decide⟩
      = [116, 97, 110, 107, 47, 102, 115] ++ [0] ∧
    nvlist_name_bytes [97] = [97] ++ [0] ∧
    (nvlist_name_bytes [97]).dropLast = [97] ∧
    cstr_read (nvlist_name_bytes [97]) = [97] :=
  ⟨(c9_native_bytes ⟨[116, 97, 110, 107, 47, 102, 115], by decide⟩ [97]).1.1,
   (c9_native_bytes ⟨[116, 97, 110, 107, 47, 102, 115], by decide⟩ [97]).2.1,
   ((c9_native_bytes ⟨[116, 97, 110, 107, 47, 102, 115], by decide⟩ [97]).2.2 (by decide)).1,
   ((c9_native_bytes ⟨[116, 97, 110, 107, 47, 102, 115], by decide⟩ [97]).2.2 (by decide)).2.2⟩

/-- C10: a successful ZPool::get_datasets returns the pool's root filesystem
dataset first — opened by the pool's own name, with the filesystem type mask,
before the dependents enumeration runs — followed by the surviving enumerated
dependents in enumeration order; the root survives the retain step because its
type is Filesystem. -/
theorem c10_get_datasets_root_first (self : ZPool) (rh : ZfsHandle)
    (deps : NativeEnum) (st : LibZfsState)
    (hroot : rh.typ = DatasetType.Filesystem) (hok : deps.status = 0) :
    self.get_datasets (some rh) deps st
      = Except.ok ({ libzfs := self.libzfs, handle := rh } ::
          ((deps.handles.map
            (fun h => { libzfs := self.libzfs, handle := h : Dataset })).filter
              keepDataset)) := by
  simp only [ZPool.get_datasets]
  rw [runCollect_eq]
  have hkeep : keepDataset { libzfs := self.libzfs, handle := rh } = true := by
    simp [keepDataset, Dataset.get_type, hroot]
  simp [hok, List.filter_cons, hkeep]

/-- C10 witness: a root filesystem followed by dependents snapshot, volume,
bookmark yields the root first, then the surviving volume, in enumeration
order. -/
theorem c10_get_datasets_root_first_witness :
    zp0.get_datasets (some hFs) { handles := [hSnapA, hVol, hBook], status := 0 } stNoent
      = Except.ok [{ libzfs := 1, handle := hFs }, { libzfs := 1, handle := hVol }] :=
  c10_get_datasets_root_first zp0 hFs
    { handles := [hSnapA, hVol, hBook], status := 0 } stNoent rfl rfl

/-- C4 witness: over the same successful native enumeration pushing two
snapshots, callback-mode accumulation equals the collect-mode result, and
accumulating names in callback mode yields the collected names. -/
theorem c4_collect_callback_agree_witness :
    d0.foreach_snapshot { handles := [hSnapA, hSnapB], status := 0 } stNoent
      (fun d acc => acc ++ [d]) []
      = d0.get_snapshots { handles := [hSnapA, hSnapB], status := 0 } stNoent ∧
    d0.foreach_snapshot { handles := [hSnapA, hSnapB], status := 0 } stNoent
      (fun d acc => acc ++ [d.get_name]) []
      = Except.ok ([{ libzfs := 1, handle := hSnapA : Dataset },
          { libzfs := 1, handle := hSnapB }].map Dataset.get_name) :=
  ⟨(c4_collect_callback_agree d0 { handles := [hSnapA, hSnapB], status := 0 } stNoent).1,
   (c4_collect_callback_agree d0 { handles := [hSnapA, hSnapB], status := 0 } stNoent).2
     [{ libzfs := 1, handle := hSnapA }, { libzfs := 1, handle := hSnapB }] rfl⟩
